import Mathlib

/-!
Verification of the IAM core of the instruction-sheet-management backend:
credential validation with lockout (auth.service.ts `validateUser`,
user.schema.ts `incLoginAttempts`/`resetLoginAttempts`), refresh-token
rotation and revocation (`refreshToken`, `logout`, `logoutFromAllDevices`,
`changePassword`), TOTP two-factor verification (`verify2FAToken`), the
JWT round-trip (login payload / SharedJwtStrategy.validate), the
department guard (`DepartmentGuard.canActivate`), and the forgot/reset
password flow.  Timestamps are milliseconds modelled as `Nat`; MongoDB
documents are records in lists; each service method becomes a pure
function from store state to result and updated store.
-/

namespace InstructionSheet

/-- User roles, from shared/common/enums/enums.ts (`UserRole`). -/
inductive UserRole where
  | admin
  | preparateur
  | ipdf
  | iqp
  | endUser
deriving DecidableEq, Repr

/-- String values of the `UserRole` enum, from shared/common/enums/enums.ts. -/
def UserRole.toValue : UserRole → String
  | .admin => "admin"
  | .preparateur => "preparateur"
  | .ipdf => "ipdf"
  | .iqp => "iqp"
  | .endUser => "end_user"

/-- Model of the external bcrypt library's `hash`: a deterministic one-way
encoding of the password (the salt/work-factor prefix is kept as an opaque
marker).  Only the `compare`/`hash` round-trip contract matters here. -/
def bcryptHash (password : String) : String :=
  "$2b$12$" ++ password

/-- Model of the external bcrypt library's `compare`: succeeds exactly when
the stored hash was produced from the supplied password. -/
def bcryptCompare (password hash : String) : Bool :=
  hash == bcryptHash password

/-- Account record, from user.schema.ts (`User` / `UserDocument`).
`id` models the Mongo `_id` (as its string form), `lockedUntil` and the
other nullable dates are `Option Nat` millisecond timestamps; an absent
(`$unset`) `loginAttempts` reads back as the schema default 0. -/
structure User where
  id : String
  email : String
  passwordHash : String
  firstName : String
  lastName : String
  role : UserRole
  departmentId : String
  isActive : Bool
  twoFactorSecret : Option String
  isTwoFactorEnabled : Bool
  loginAttempts : Nat
  lockedUntil : Option Nat
  lastLoginAt : Option Nat
  passwordChangedAt : Option Nat
deriving DecidableEq, Repr

/-- Virtual `isLocked` from user.schema.ts: `lockedUntil && lockedUntil > new Date()`. -/
def User.isLocked (u : User) (now : Nat) : Bool :=
  match u.lockedUntil with
  | some t => decide (now < t)
  | none => false

/-- Guard of the first branch of `incLoginAttempts` in user.schema.ts:
`this.lockedUntil && this.lockedUntil < Date.now()` (a previous lock that
has already expired). -/
def User.hasExpiredLock (u : User) (now : Nat) : Bool :=
  match u.lockedUntil with
  | some t => decide (t < now)
  | none => false

/-- `UserSchema.methods.incLoginAttempts` (user.schema.ts lines 121-144) as a
pure update.  If a previous lock has expired, restart `loginAttempts` at 1 and
`$unset` `lockedUntil`; otherwise `$inc` the counter, additionally setting
`lockedUntil = now + 2h` when `loginAttempts + 1 >= 5` and the account is not
currently locked. -/
def User.incLoginAttempts (u : User) (now : Nat) : User :=
  if u.hasExpiredLock now then
    { u with loginAttempts := 1, lockedUntil := none }
  else if u.loginAttempts + 1 ≥ 5 && !(u.isLocked now) then
    { u with loginAttempts := u.loginAttempts + 1,
             lockedUntil := some (now + 2 * 60 * 60 * 1000) }
  else
    { u with loginAttempts := u.loginAttempts + 1 }

/-- `UserSchema.methods.resetLoginAttempts` (user.schema.ts lines 146-153):
`$unset` both `loginAttempts` (reads back as default 0) and `lockedUntil`. -/
def User.resetLoginAttempts (u : User) : User :=
  { u with loginAttempts := 0, lockedUntil := none }

/-- ASCII lowercasing of one character, as JS `toLowerCase` acts on the
ASCII range (emails in this system are ASCII). -/
def asciiLowerChar (c : Char) : Char :=
  if 65 ≤ c.toNat ∧ c.toNat ≤ 90 then Char.ofNat (c.toNat + 32) else c

/-- Model of JS `String.prototype.toLowerCase` on ASCII strings. -/
def asciiLower (s : String) : String :=
  ⟨s.data.map asciiLowerChar⟩

/-- `userModel.findOne({ email: email.toLowerCase() })`. -/
def findUserByEmail (users : List User) (email : String) : Option User :=
  users.find? (fun u => u.email == asciiLower email)

/-- `userModel.findById(userId)`. -/
def findUserById (users : List User) (id : String) : Option User :=
  users.find? (fun u => u.id == id)

/-- A mongoose per-document update (`user.updateOne`/`user.save`): rewrite the
document with the given `_id` in place. -/
def updateUser (users : List User) (id : String) (f : User → User) : List User :=
  users.map (fun u => if u.id == id then f u else u)

/-- Outcome of `AuthService.validateUser`: `invalidCredentials` stands for the
`null` return that `login` maps to the generic "Invalid credentials" error;
`accountLocked` and `accountInactive` are the two exceptions it throws. -/
inductive ValidateResult where
  | ok (u : User)
  | invalidCredentials
  | accountLocked
  | accountInactive
deriving DecidableEq, Repr

/-- Whether a `ValidateResult` is the success case. -/
def ValidateResult.isOk : ValidateResult → Bool
  | .ok _ => true
  | _ => false

/-- `AuthService.validateUser` (auth.service.ts lines 132-166) over the user
store: look the account up by lowercased email (absent → generic failure),
then check the lock, then `isActive`, then the password; a wrong password
runs `incLoginAttempts`, a correct one resets a nonzero counter. -/
def validateUser (users : List User) (email password : String) (now : Nat) :
    ValidateResult × List User :=
  match findUserByEmail users email with
  | none => (.invalidCredentials, users)
  | some u =>
    if u.isLocked now then (.accountLocked, users)
    else if !u.isActive then (.accountInactive, users)
    else if !(bcryptCompare password u.passwordHash) then
      (.invalidCredentials, updateUser users u.id (fun v => v.incLoginAttempts now))
    else if u.loginAttempts > 0 then
      (.ok u, updateUser users u.id User.resetLoginAttempts)
    else (.ok u, users)

/-- Iterated failed (or attempted) logins: thread the store through
`validateUser` once per timestamp in `times`, with a fixed email/password. -/
def loginAttemptsAt (users : List User) (email password : String)
    (times : List Nat) : List User :=
  times.foldl (fun us t => (validateUser us email password t).2) users

/-- JWT payload built by `login`/`refreshToken` (auth.service.ts lines
111-116 and 186-191): `sub`, `email`, `role`, `departmentId`. -/
structure JwtPayload where
  sub : String
  email : String
  role : UserRole
  departmentId : String
deriving DecidableEq, Repr

/-- Model of a signed compact token: payload plus `iat`/`exp` claims and the
signature (represented by the signing secret, standing for a valid signature
under that secret). -/
structure SignedToken where
  payload : JwtPayload
  iat : Nat
  exp : Nat
  signature : String
deriving DecidableEq, Repr

/-- Model of the external JWT library's `sign` (jwtService.sign with the
configured secret and 15-minute `expiresIn`): embeds the payload, stamps
`iat`/`exp`, signs with the secret. -/
def jwtSign (secret : String) (p : JwtPayload) (iat ttl : Nat) : SignedToken :=
  ⟨p, iat, iat + ttl, secret⟩

/-- Model of the external JWT library's `verify` (passport-jwt with
`ignoreExpiration: false`): the signature must match the shared secret and
the token must not be expired (`now < exp`). -/
def jwtVerify (secret : String) (now : Nat) (t : SignedToken) : Option JwtPayload :=
  if t.signature == secret && decide (now < t.exp) then some t.payload else none

/-- The payload `login` builds for an account (auth.service.ts lines 111-116):
`sub` is the id's string form, plus email, role and departmentId. -/
def buildPayload (u : User) : JwtPayload :=
  ⟨u.id, u.email, u.role, u.departmentId⟩

/-- The request-scoped user object `SharedJwtStrategy.validate` returns. -/
structure AuthedUser where
  userId : String
  email : String
  role : UserRole
  departmentId : String
deriving DecidableEq, Repr

/-- `SharedJwtStrategy.validate` (shared-jwt.strategy.ts lines 23-41): reject
a payload whose `sub`, `email` or `role` is JS-falsy (for strings, empty),
otherwise expose `userId`/`email`/`role`/`departmentId`. -/
def jwtStrategyValidate (p : JwtPayload) : Option AuthedUser :=
  if p.sub == "" || p.email == "" || p.role.toValue == "" then none
  else some ⟨p.sub, p.email, p.role, p.departmentId⟩

/-- End-to-end access-token verification: library `verify` (signature +
expiry) followed by `SharedJwtStrategy.validate`. -/
def verifyAccessToken (secret : String) (now : Nat) (t : SignedToken) :
    Option AuthedUser :=
  match jwtVerify secret now t with
  | none => none
  | some p => jwtStrategyValidate p

/-- Refresh-session record, from refresh-token.schema.ts (`RefreshToken`). -/
structure RefreshToken where
  token : String
  userId : String
  expiresAt : Nat
  isRevoked : Bool
  ipAddress : Option String
  userAgent : Option String
deriving DecidableEq, Repr

/-- Virtual `isExpired` from refresh-token.schema.ts: `expiresAt < new Date()`. -/
def RefreshToken.isExpired (s : RefreshToken) (now : Nat) : Bool :=
  decide (s.expiresAt < now)

/-- Virtual `isValid` from refresh-token.schema.ts: `!isRevoked && !isExpired`. -/
def RefreshToken.isValid (s : RefreshToken) (now : Nat) : Bool :=
  !s.isRevoked && !(s.isExpired now)

/-- `refreshTokenModel.findOne({ token, isRevoked: false })`: first session
matching both the token value and `isRevoked: false`. -/
def findActiveSession (sessions : List RefreshToken) (token : String) :
    Option RefreshToken :=
  sessions.find? (fun s => s.token == token && s.isRevoked == false)

/-- A mongoose single-document write (`tokenDoc.save()` after mutation, or
`updateOne` with a filter): rewrite the first document matching `p`. -/
def updateOneSession (sessions : List RefreshToken) (p : RefreshToken → Bool)
    (f : RefreshToken → RefreshToken) : List RefreshToken :=
  match sessions with
  | [] => []
  | s :: rest => if p s then f s :: rest else s :: updateOneSession rest p f

/-- `AuthService.generateRefreshToken` (auth.service.ts lines 213-231): a new
session document with the freshly random token, owner, 7-day expiry and the
caller-supplied ip/agent metadata, appended to the store. -/
def generateRefreshToken (sessions : List RefreshToken) (freshTok userId : String)
    (now : Nat) (ip agent : Option String) : List RefreshToken :=
  sessions ++ [⟨freshTok, userId, now + 7 * 24 * 60 * 60 * 1000, false, ip, agent⟩]

/-- Outcome of `AuthService.refreshToken`; `internalError` models the
uncaught failure when `populate` finds no owning user document. -/
inductive RefreshResult where
  | ok (accessToken : SignedToken) (newRefreshToken : String)
  | invalidRefreshToken
  | accountInactive
  | internalError
deriving DecidableEq, Repr

/-- `AuthService.refreshToken` (auth.service.ts lines 169-210): look up an
unrevoked session by token, reject when absent or not `isValid`, reject an
inactive owner, re-read the owner's current role/department into a new
access token, mark the old session revoked (saved before anything else is
returned), then persist a successor session with the same ip/agent. -/
def refreshToken (secret : String) (users : List User)
    (sessions : List RefreshToken) (token : String) (now : Nat)
    (freshTok : String) (ttl : Nat) : RefreshResult × List RefreshToken :=
  match findActiveSession sessions token with
  | none => (.invalidRefreshToken, sessions)
  | some tokenDoc =>
    if !(tokenDoc.isValid now) then (.invalidRefreshToken, sessions)
    else
      match findUserById users tokenDoc.userId with
      | none => (.internalError, sessions)
      | some user =>
        if !user.isActive then (.accountInactive, sessions)
        else
          let accessToken := jwtSign secret (buildPayload user) now ttl
          let revokedStore := updateOneSession sessions
            (fun s => s.token == token && s.isRevoked == false)
            (fun s => { s with isRevoked := true })
          (.ok accessToken freshTok,
           generateRefreshToken revokedStore freshTok user.id now
             tokenDoc.ipAddress tokenDoc.userAgent)

/-- `AuthService.logout` (auth.service.ts lines 234-241):
`updateOne({ token }, { isRevoked: true })`, then report success
unconditionally. -/
def logout (sessions : List RefreshToken) (token : String) :
    String × List RefreshToken :=
  ("Logged out successfully",
   updateOneSession sessions (fun s => s.token == token)
     (fun s => { s with isRevoked := true }))

/-- `AuthService.logoutFromAllDevices` (auth.service.ts lines 244-251):
`updateMany({ userId, isRevoked: false }, { isRevoked: true })`. -/
def logoutFromAllDevices (sessions : List RefreshToken) (userId : String) :
    String × List RefreshToken :=
  ("Logged out from all devices successfully",
   sessions.map (fun s =>
     if s.userId == userId && s.isRevoked == false then
       { s with isRevoked := true }
     else s))

/-- Outcome of `AuthService.changePassword`. -/
inductive ChangePasswordResult where
  | ok
  | notFound
  | currentPasswordIncorrect
  | samePassword
deriving DecidableEq, Repr

/-- `AuthService.changePassword` (auth.service.ts lines 254-289): find the
user, verify the current password, require the new password to differ, store
the new hash and `passwordChangedAt`, then revoke every session of the user
via `logoutFromAllDevices`. -/
def changePassword (users : List User) (sessions : List RefreshToken)
    (userId currentPassword newPassword : String) (now : Nat) :
    ChangePasswordResult × List User × List RefreshToken :=
  match findUserById users userId with
  | none => (.notFound, users, sessions)
  | some u =>
    if !(bcryptCompare currentPassword u.passwordHash) then
      (.currentPasswordIncorrect, users, sessions)
    else if bcryptCompare newPassword u.passwordHash then
      (.samePassword, users, sessions)
    else
      (.ok,
       updateUser users u.id (fun v =>
         { v with passwordHash := bcryptHash newPassword,
                  passwordChangedAt := some now }),
       (logoutFromAllDevices sessions u.id).2)

/-- Counters the external speakeasy library checks for `totp.verify` with a
given `window`: with window `w` it tries every counter from `counter - w` to
`counter + w` inclusive (its documented two-sided margin). -/
def totpCheckCounters (window counter : Nat) : List Nat :=
  (List.range (2 * window + 1)).map (fun i => counter - window + i)

/-- Model of the external speakeasy library's `totp.verify`: the supplied
token matches when it equals the code generated for some counter within the
two-sided window around the current counter.  The code-generation function
itself (HMAC-based, RFC 6238) is a parameter. -/
def speakeasyTotpVerify (totp : String → Nat → String)
    (secret token : String) (window counter : Nat) : Bool :=
  (totpCheckCounters window counter).any (fun c => totp secret c == token)

/-- `AuthService.verify2FAToken` (auth.service.ts lines 382-389): speakeasy
`totp.verify` with the hard-coded `window: 2`. -/
def verify2FAToken (totp : String → Nat → String)
    (secret token : String) (counter : Nat) : Bool :=
  speakeasyTotpVerify totp secret token 2 counter

/-- The TOTP time-step counter for a wall-clock time in seconds, with the
standard (and speakeasy-default) 30-second step. -/
def totpCounterAt (nowSeconds : Nat) : Nat :=
  nowSeconds / 30

/-- A stand-in RFC 6238 code generator used to evaluate the window semantics
at concrete inputs: distinct counters yield distinct codes, as collisions
are the probabilistic exception for a real generator. -/
def demoTotp (secret : String) (counter : Nat) : String :=
  secret ++ "-" ++ toString counter

/-- `AuthService.forgotPassword` (auth.service.ts lines 392-410): whether or
not the email exists, reply with the same generic message; the reset token
generated for an existing user is only logged, never persisted, so the user
store is returned untouched in both branches. -/
def forgotPassword (users : List User) (email : String) :
    String × List User :=
  match findUserByEmail users email with
  | none =>
    ("If your email exists in our system, you will receive a password reset link",
     users)
  | some _ =>
    ("If your email exists in our system, you will receive a password reset link",
     users)

/-- `AuthService.resetPassword` (auth.service.ts lines 413-421): the token is
only logged — no verification against stored state, no account mutation —
and the success message is returned for every input. -/
def resetPassword (users : List User) (token newPassword : String) :
    String × List User :=
  ("Password reset successfully", users)

/-- Department-bearing parts of a request seen by the guard: the optional
`departmentId` of `params`, `query` and `body`. -/
structure GuardRequest where
  paramsDepartmentId : Option String
  queryDepartmentId : Option String
  bodyDepartmentId : Option String
deriving DecidableEq, Repr

/-- JS truthiness of an optional string: present and nonempty. -/
def truthyStr : Option String → Bool
  | some s => s != ""
  | none => false

/-- The guard's target-department resolution (department.guard.ts lines
35-38): `params?.departmentId || query?.departmentId || body?.departmentId`,
i.e. the first truthy of the three (none when all are falsy, which is
exactly when the subsequent `if (!departmentId)` allows the request). -/
def resolveDepartmentId (r : GuardRequest) : Option String :=
  if truthyStr r.paramsDepartmentId then r.paramsDepartmentId
  else if truthyStr r.queryDepartmentId then r.queryDepartmentId
  else if truthyStr r.bodyDepartmentId then r.bodyDepartmentId
  else none

/-- Outcome of `DepartmentGuard.canActivate`: `true`, or a thrown
`ForbiddenException` with its message. -/
inductive GuardResult where
  | allow
  | forbidden (msg : String)
deriving DecidableEq, Repr

/-- `DepartmentGuard.canActivate` (department.guard.ts lines 12-51): no-op
unless the handler requires department access; unauthenticated → forbidden;
ADMIN bypasses; no target department on the request → allow; otherwise the
caller's department must equal the target. -/
def canActivate (requiresDepartmentAccess : Bool) (user : Option AuthedUser)
    (req : GuardRequest) : GuardResult :=
  if !requiresDepartmentAccess then .allow
  else
    match user with
    | none => .forbidden "User not authenticated"
    | some u =>
      if u.role = UserRole.admin then .allow
      else
        match resolveDepartmentId req with
        | none => .allow
        | some d =>
          if u.departmentId == d then .allow
          else .forbidden "Access denied to this department"

/-! ## Helper lemmas -/

/-- Hashing then comparing the same password succeeds. -/
lemma bcryptCompare_hash_self (p : String) : bcryptCompare p (bcryptHash p) = true := by
  simp [bcryptCompare]

/-- Every `UserRole` enum value is a nonempty (JS-truthy) string. -/
lemma UserRole.toValue_ne_empty (r : UserRole) : (r.toValue == "") = false := by
  cases r <;> decide

/-- Looking up a singleton store by the stored (lowercased) email finds the user. -/
lemma findUserByEmail_singleton (u : User) (e : String)
    (hemail : u.email = asciiLower e) :
    findUserByEmail [u] e = some u := by
  simp [findUserByEmail, List.find?, hemail]

/-- `validateUser` on a locked account refuses with `accountLocked` before
looking at the password, leaving the store unchanged. -/
lemma validateUser_locked (u : User) (e pw : String) (now : Nat)
    (hemail : u.email = asciiLower e) (hl : u.isLocked now = true) :
    validateUser [u] e pw now = (.accountLocked, [u]) := by
  unfold validateUser
  rw [findUserByEmail_singleton u e hemail]
  simp [hl]

/-- `validateUser` on an unlocked active account with a wrong password fails
with the generic result and applies `incLoginAttempts` to the account. -/
lemma validateUser_single_wrong (u : User) (e w : String) (now : Nat)
    (hemail : u.email = asciiLower e) (hnl : u.isLocked now = false)
    (hactive : u.isActive = true)
    (hwrong : bcryptCompare w u.passwordHash = false) :
    validateUser [u] e w now = (.invalidCredentials, [u.incLoginAttempts now]) := by
  unfold validateUser
  rw [findUserByEmail_singleton u e hemail]
  simp [hnl, hactive, hwrong, updateUser]

/-- `validateUser` on an unlocked active account with the right password
succeeds. -/
lemma validateUser_single_right (u : User) (e p : String) (now : Nat)
    (hemail : u.email = asciiLower e) (hnl : u.isLocked now = false)
    (hactive : u.isActive = true)
    (hright : bcryptCompare p u.passwordHash = true) :
    (validateUser [u] e p now).1 = .ok u := by
  unfold validateUser
  rw [findUserByEmail_singleton u e hemail]
  by_cases hz : u.loginAttempts > 0 <;> simp [hnl, hactive, hright, hz]

/-- An `updateOneSession` pass whose predicate matches no session is the
identity. -/
lemma updateOneSession_of_no_match (sessions : List RefreshToken)
    (p : RefreshToken → Bool) (f : RefreshToken → RefreshToken)
    (h : ∀ s ∈ sessions, p s = false) :
    updateOneSession sessions p f = sessions := by
  induction sessions with
  | nil => rfl
  | cons s rest ih =>
    have hs := h s (List.mem_cons_self s rest)
    simp only [updateOneSession, hs, Bool.false_eq_true, if_false, List.cons.injEq, true_and]
    exact ih (fun x hx => h x (List.mem_cons_of_mem s hx))

/-- Revoking the session of a given token twice is the same as revoking it
once. -/
lemma logout_revoke_idem (sessions : List RefreshToken) (token : String) :
    updateOneSession
      (updateOneSession sessions (fun s => s.token == token)
        (fun s => { s with isRevoked := true }))
      (fun s => s.token == token) (fun s => { s with isRevoked := true }) =
    updateOneSession sessions (fun s => s.token == token)
      (fun s => { s with isRevoked := true }) := by
  induction sessions with
  | nil => rfl
  | cons s rest ih =>
    by_cases h : (s.token == token) = true
    · simp [updateOneSession, h]
    · simp only [updateOneSession, h, Bool.false_eq_true, if_false, List.cons.injEq, true_and]
      exact ih

/-- After `logoutFromAllDevices`, every session of the user is revoked. -/
lemma logoutFromAllDevices_revokes (sessions : List RefreshToken) (userId : String) :
    ∀ s ∈ (logoutFromAllDevices sessions userId).2, s.userId = userId →
      s.isRevoked = true := by
  intro s hs huid
  simp only [logoutFromAllDevices, List.mem_map] at hs
  obtain ⟨t, _, rfl⟩ := hs
  cases hc : (t.userId == userId && t.isRevoked == false) with
  | true => simp only [hc, if_true]
  | false =>
    simp only [hc, Bool.false_eq_true, if_false] at huid ⊢
    cases hr : t.isRevoked with
    | true => rfl
    | false => simp [huid, hr] at hc

/-- `incLoginAttempts` on an account with no lock on record: plain increment,
locking two hours out when the incremented counter reaches the threshold. -/
lemma incLoginAttempts_no_lock (u : User) (now : Nat) (hlock : u.lockedUntil = none) :
    u.incLoginAttempts now =
      if u.loginAttempts + 1 ≥ 5 then
        { u with loginAttempts := u.loginAttempts + 1,
                 lockedUntil := some (now + 2 * 60 * 60 * 1000) }
      else { u with loginAttempts := u.loginAttempts + 1 } := by
  by_cases h5 : u.loginAttempts + 1 ≥ 5 <;>
    simp [User.incLoginAttempts, User.hasExpiredLock, User.isLocked, hlock, h5]

/-- A failed attempt on an unlocked, below-threshold account just increments
the stored counter. -/
lemma validateUser_wrong_step_no_lock (u : User) (e w : String) (now : Nat)
    (hemail : u.email = asciiLower e) (hlock : u.lockedUntil = none)
    (hact : u.isActive = true)
    (hwrong : bcryptCompare w u.passwordHash = false)
    (hlt : u.loginAttempts + 1 < 5) :
    (validateUser [u] e w now).2 =
      [{ u with loginAttempts := u.loginAttempts + 1 }] := by
  rw [validateUser_single_wrong u e w now hemail
    (by simp [User.isLocked, hlock]) hact hwrong]
  rw [incLoginAttempts_no_lock u now hlock, if_neg (by omega)]

/-- A failed attempt on an unlocked account at the threshold increments the
counter and sets the two-hour lock. -/
lemma validateUser_wrong_step_locks (u : User) (e w : String) (now : Nat)
    (hemail : u.email = asciiLower e) (hlock : u.lockedUntil = none)
    (hact : u.isActive = true)
    (hwrong : bcryptCompare w u.passwordHash = false)
    (hge : 5 ≤ u.loginAttempts + 1) :
    (validateUser [u] e w now).2 =
      [{ u with loginAttempts := u.loginAttempts + 1,
                lockedUntil := some (now + 2 * 60 * 60 * 1000) }] := by
  rw [validateUser_single_wrong u e w now hemail
    (by simp [User.isLocked, hlock]) hact hwrong]
  rw [incLoginAttempts_no_lock u now hlock, if_pos hge]

/-- After revoking the first live session of `token` in a store whose session
tokens are pairwise distinct, every session bearing `token` is revoked. -/
lemma updateOne_revoke_all (sessions : List RefreshToken) (token : String)
    (huniq : sessions.Pairwise (fun a b => a.token ≠ b.token)) :
    ∀ s ∈ updateOneSession sessions
        (fun x => x.token == token && x.isRevoked == false)
        (fun x => { x with isRevoked := true }),
      s.token = token → s.isRevoked = true := by
  induction sessions with
  | nil => intro s hs; cases hs
  | cons hd rest ih =>
    rw [List.pairwise_cons] at huniq
    intro s hs htok
    by_cases hp : (hd.token == token && hd.isRevoked == false) = true
    · simp only [updateOneSession, hp, if_true] at hs
      rcases List.mem_cons.mp hs with rfl | hmem
      · rfl
      · have hhd : hd.token = token :=
          eq_of_beq (Bool.and_eq_true _ _ ▸ hp).1
        exact absurd (hhd.trans htok.symm) (huniq.1 s hmem)
    · simp only [updateOneSession, hp, Bool.false_eq_true, if_false] at hs
      rcases List.mem_cons.mp hs with rfl | hmem
      · cases hr : s.isRevoked with
        | true => rfl
        | false => simp [htok, hr] at hp
      · exact ih huniq.2 s hmem htok

/-! ## Claim theorems -/

/-- C10: for every input, `resetPassword` reports success without verifying
the token or modifying any account, and `forgotPassword` leaves the user
store unchanged (the reset token it generates is never persisted), replying
with the same generic message whether or not the email exists. -/
theorem resetPassword_forgotPassword_frame
    (users : List User) (email token newPassword : String) :
    resetPassword users token newPassword = ("Password reset successfully", users)
    ∧ (forgotPassword users email).2 = users
    ∧ (forgotPassword users email).1 =
        "If your email exists in our system, you will receive a password reset link" := by
  refine ⟨rfl, ?_, ?_⟩ <;>
  · unfold forgotPassword
    cases findUserByEmail users email <;> rfl

/-- C9: `logout` always reports success — also for an already-revoked or
absent token — revoking an absent token leaves the store unchanged, and
running `logout` twice on the same token leaves the store exactly as one run
does. -/
theorem logout_idempotent_total (sessions : List RefreshToken) (token : String) :
    (logout sessions token).1 = "Logged out successfully"
    ∧ (logout (logout sessions token).2 token).2 = (logout sessions token).2
    ∧ ((∀ s ∈ sessions, s.token ≠ token) → (logout sessions token).2 = sessions) := by
  refine ⟨rfl, logout_revoke_idem sessions token, fun h => ?_⟩
  exact updateOneSession_of_no_match sessions _ _ (fun s hs => by
    simpa using h s hs)

/-- C9 witness: on a store holding one revoked session for "t1" and nothing
for "t9", both revoking "t9" (absent) and re-revoking "t1" report success
and leave the store as it was. -/
theorem logout_idempotent_total_witness :
    (logout [⟨"t1", "u1", 100, true, none, none⟩] "t9").1 = "Logged out successfully"
    ∧ (logout [⟨"t1", "u1", 100, true, none, none⟩] "t9").2 =
        [⟨"t1", "u1", 100, true, none, none⟩] := by
  have h := logout_idempotent_total [⟨"t1", "u1", 100, true, none, none⟩] "t9"
  exact ⟨h.1, h.2.2 (by decide)⟩

/-- C3 (evaluation at the failing input): `verify2FAToken` passes `window: 2`
to the speakeasy verifier, whose window is two-sided, so a code generated two
30-second steps away from the current counter is accepted — the actual drift
tolerance is ±2 steps, not the documented ±1 — while codes at the current
step and ±1 step are accepted and codes 3 steps away are rejected. -/
theorem verify2FAToken_accepts_two_steps :
    verify2FAToken demoTotp "SECRET" (demoTotp "SECRET" 1002) 1000 = true
    ∧ verify2FAToken demoTotp "SECRET" (demoTotp "SECRET" 998) 1000 = true
    ∧ verify2FAToken demoTotp "SECRET" (demoTotp "SECRET" 1000) 1000 = true
    ∧ verify2FAToken demoTotp "SECRET" (demoTotp "SECRET" 1001) 1000 = true
    ∧ verify2FAToken demoTotp "SECRET" (demoTotp "SECRET" 999) 1000 = true
    ∧ verify2FAToken demoTotp "SECRET" (demoTotp "SECRET" 1003) 1000 = false
    ∧ verify2FAToken demoTotp "SECRET" (demoTotp "SECRET" 997) 1000 = false := by
  decide

/-- C7: on a department-scoped route, an authenticated ADMIN is allowed
unconditionally; any other role is allowed exactly when the request resolves
no target department (no-op) or the target equals the caller's department,
and a mismatching target is rejected with the department `Forbidden`
message. -/
theorem canActivate_department_scope (u : AuthedUser) (req : GuardRequest) :
    (u.role = UserRole.admin → canActivate true (some u) req = .allow)
    ∧ (u.role ≠ UserRole.admin →
        (canActivate true (some u) req = .allow ↔
          (resolveDepartmentId req = none ∨
           resolveDepartmentId req = some u.departmentId)))
    ∧ (u.role ≠ UserRole.admin → ∀ d, resolveDepartmentId req = some d →
        d ≠ u.departmentId →
        canActivate true (some u) req = .forbidden "Access denied to this department") := by
  have hdef : canActivate true (some u) req =
      (if u.role = UserRole.admin then .allow
       else
        match resolveDepartmentId req with
        | none => .allow
        | some d =>
          if u.departmentId == d then .allow
          else .forbidden "Access denied to this department") := rfl
  refine ⟨fun hadm => by rw [hdef, if_pos hadm], fun hadm => ?_, fun hadm d hd hne => ?_⟩
  · rw [hdef, if_neg hadm]
    cases hres : resolveDepartmentId req with
    | none => simp
    | some d =>
      by_cases he : u.departmentId = d
      · subst he
        simp
      · simp [he, Ne.symm he]
  · rw [hdef, if_neg hadm, hd]
    simp [Ne.symm hne]

/-- C7 witness: a PREPARER in department D1 is allowed when the request
targets D1 and rejected when it targets D2. -/
theorem canActivate_department_scope_witness :
    canActivate true (some ⟨"u1", "a@x.com", UserRole.preparateur, "D1"⟩)
      ⟨some "D1", none, none⟩ = .allow
    ∧ canActivate true (some ⟨"u1", "a@x.com", UserRole.preparateur, "D1"⟩)
      ⟨some "D2", none, none⟩ = .forbidden "Access denied to this department" := by
  constructor
  · exact ((canActivate_department_scope ⟨"u1", "a@x.com", UserRole.preparateur, "D1"⟩
      ⟨some "D1", none, none⟩).2.1 (by decide)).mpr (Or.inr (by decide))
  · exact (canActivate_department_scope ⟨"u1", "a@x.com", UserRole.preparateur, "D1"⟩
      ⟨some "D2", none, none⟩).2.2 (by decide) "D2" (by decide) (by decide)

/-- C6: verifying the access token issued for an account — within its
validity window, under the shared secret — succeeds and yields claims whose
subject id, role and departmentId are exactly the account's. -/
theorem verifyAccessToken_roundtrip (u : User) (secret : String) (iat ttl now : Nat)
    (hsub : u.id ≠ "") (hemail : u.email ≠ "") (hnow : now < iat + ttl) :
    verifyAccessToken secret now (jwtSign secret (buildPayload u) iat ttl) =
      some ⟨u.id, u.email, u.role, u.departmentId⟩ := by
  unfold verifyAccessToken jwtVerify jwtSign
  simp only [beq_self_eq_true, Bool.true_and, decide_eq_true_eq, hnow, if_true]
  unfold jwtStrategyValidate buildPayload
  simp [hsub, hemail, UserRole.toValue_ne_empty]

/-- C6 witness: a concrete END_USER account in department D1 round-trips
through issue-then-verify with all three claim fields preserved. -/
theorem verifyAccessToken_roundtrip_witness :
    verifyAccessToken "jwt-secret" 100
      (jwtSign "jwt-secret"
        (buildPayload ⟨"u1", "a@x.com", bcryptHash "Str0ng!Pass1", "Ada", "Lovelace",
          UserRole.endUser, "D1", true, none, false, 0, none, none, none⟩) 100 900) =
      some ⟨"u1", "a@x.com", UserRole.endUser, "D1"⟩ :=
  verifyAccessToken_roundtrip
    ⟨"u1", "a@x.com", bcryptHash "Str0ng!Pass1", "Ada", "Lovelace",
      UserRole.endUser, "D1", true, none, false, 0, none, none, none⟩
    "jwt-secret" 100 900 100 (by decide) (by decide) (by decide)

/-- C8: when `changePassword` succeeds, every refresh session owned by the
account ends up revoked (it delegates to `logoutFromAllDevices`), and
`logoutFromAllDevices` itself leaves the account with zero unrevoked
sessions. -/
theorem changePassword_revokes_all_sessions
    (users : List User) (sessions : List RefreshToken)
    (userId currentPassword newPassword : String) (now : Nat) :
    ((changePassword users sessions userId currentPassword newPassword now).1 =
        .ok →
      ∀ s ∈ (changePassword users sessions userId currentPassword newPassword now).2.2,
        s.userId = userId → s.isRevoked = true)
    ∧ (∀ s ∈ (logoutFromAllDevices sessions userId).2, s.userId = userId →
        s.isRevoked = true) := by
  refine ⟨fun hok => ?_, logoutFromAllDevices_revokes sessions userId⟩
  unfold changePassword at hok ⊢
  cases hfind : findUserById users userId with
  | none => rw [hfind] at hok; simp at hok
  | some u =>
    rw [hfind] at hok
    have hid : u.id = userId := by
      have := List.find?_some hfind
      simpa using this
    by_cases hcur : bcryptCompare currentPassword u.passwordHash = true
    · by_cases hsame : bcryptCompare newPassword u.passwordHash = true
      · simp [hcur, hsame] at hok
      · simp only [hcur, hsame, Bool.not_true, Bool.false_eq_true, if_false]
        intro s hs huid
        exact logoutFromAllDevices_revokes sessions u.id s hs
          (huid.trans hid.symm)
    · simp [hcur] at hok

/-- C8 witness: changing the password of u1 (one live session in store)
succeeds and that session comes back revoked. -/
theorem changePassword_revokes_all_sessions_witness :
    (⟨"t1", "u1", 604800000, true, none, none⟩ : RefreshToken).isRevoked = true :=
  (changePassword_revokes_all_sessions
      [⟨"u1", "a@x.com", bcryptHash "OldPass1!", "Ada", "Lovelace",
        UserRole.endUser, "D1", true, none, false, 0, none, none, none⟩]
      [⟨"t1", "u1", 604800000, false, none, none⟩]
      "u1" "OldPass1!" "NewPass2!" 42).1 (by decide)
    ⟨"t1", "u1", 604800000, true, none, none⟩ (by decide) (by decide)

/-- C4: when a previous lock has already expired (`lockedUntil` strictly in
the past) and the next authentication attempt fails, that attempt resets
`loginAttempts` to exactly 1 and clears `lockedUntil` instead of continuing
to increment the pre-lock counter. -/
theorem expiredLock_failed_attempt_resets (u : User) (e w : String) (t now : Nat)
    (hemail : u.email = asciiLower e) (hlock : u.lockedUntil = some t)
    (hexp : t < now) (hactive : u.isActive = true)
    (hwrong : bcryptCompare w u.passwordHash = false) :
    (validateUser [u] e w now).1 = .invalidCredentials
    ∧ ∃ v, (validateUser [u] e w now).2 = [v]
        ∧ v.loginAttempts = 1 ∧ v.lockedUntil = none := by
  have hnl : u.isLocked now = false := by
    simp [User.isLocked, hlock, Nat.not_lt.mpr (Nat.le_of_lt hexp)]
  rw [validateUser_single_wrong u e w now hemail hnl hactive hwrong]
  have hel : u.hasExpiredLock now = true := by
    simp [User.hasExpiredLock, hlock, hexp]
  refine ⟨rfl, { u with loginAttempts := 1, lockedUntil := none }, ?_, rfl, rfl⟩
  simp [User.incLoginAttempts, hel]

/-- C4 witness: a user whose lock expired at t=100, failing again with a
wrong password at t=200, lands on `loginAttempts = 1` with no lock. -/
theorem expiredLock_failed_attempt_resets_witness :
    (validateUser
        [⟨"u1", "a@x.com", bcryptHash "Str0ng!Pass1", "Ada", "Lovelace",
          UserRole.endUser, "D1", true, none, false, 5, some 100, none, none⟩]
        "a@x.com" "wrong" 200).1 = ValidateResult.invalidCredentials
    ∧ ∃ v, (validateUser
        [⟨"u1", "a@x.com", bcryptHash "Str0ng!Pass1", "Ada", "Lovelace",
          UserRole.endUser, "D1", true, none, false, 5, some 100, none, none⟩]
        "a@x.com" "wrong" 200).2 = [v]
        ∧ v.loginAttempts = 1 ∧ v.lockedUntil = none :=
  expiredLock_failed_attempt_resets
    ⟨"u1", "a@x.com", bcryptHash "Str0ng!Pass1", "Ada", "Lovelace",
      UserRole.endUser, "D1", true, none, false, 5, some 100, none, none⟩
    "a@x.com" "wrong" 100 200 (by decide) rfl (by decide) rfl (by decide)

/-- C5 counterexample: the claim says a wrong password (after the
lookup/lock/active checks pass) increments `loginAttempts`, but for a user
whose lock has expired with `loginAttempts = 5`, the failed attempt stores
`loginAttempts = 1`, not `6`. -/
theorem validateUser_wrong_password_not_increment :
    (validateUser
        [⟨"u1", "a@x.com", bcryptHash "Str0ng!Pass1", "Ada", "Lovelace",
          UserRole.endUser, "D1", true, none, false, 5, some 100, none, none⟩]
        "a@x.com" "wrong" 200).1 = ValidateResult.invalidCredentials
    ∧ (validateUser
        [⟨"u1", "a@x.com", bcryptHash "Str0ng!Pass1", "Ada", "Lovelace",
          UserRole.endUser, "D1", true, none, false, 5, some 100, none, none⟩]
        "a@x.com" "wrong" 200).2.map User.loginAttempts ≠ [5 + 1]
    ∧ (validateUser
        [⟨"u1", "a@x.com", bcryptHash "Str0ng!Pass1", "Ada", "Lovelace",
          UserRole.endUser, "D1", true, none, false, 5, some 100, none, none⟩]
        "a@x.com" "wrong" 200).2.map User.loginAttempts = [1] := by
  refine ⟨?_, ?_, ?_⟩ <;> decide

/-- C5 (amended): `validateUser` evaluates its checks in a fixed order and
returns the first failure — unknown email gives the generic
`invalidCredentials`, then a standing lock gives `accountLocked`, then an
inactive account gives `accountInactive`; a wrong password then runs
`incLoginAttempts` and gives `invalidCredentials`, where `incLoginAttempts`
resets the counter to 1 and clears the lock when an expired lock is pending,
and otherwise increments the counter, setting
`lockedUntil = now + 2 hours` when the incremented value reaches the
threshold 5. -/
theorem validateUser_first_failure_order
    (users : List User) (email password : String) (now : Nat) :
    (findUserByEmail users email = none →
      validateUser users email password now = (.invalidCredentials, users))
    ∧ ∀ u, findUserByEmail users email = some u →
        (u.isLocked now = true →
          validateUser users email password now = (.accountLocked, users))
        ∧ (u.isLocked now = false → u.isActive = false →
          validateUser users email password now = (.accountInactive, users))
        ∧ (u.isLocked now = false → u.isActive = true →
           bcryptCompare password u.passwordHash = false →
            (validateUser users email password now).1 = .invalidCredentials
            ∧ (validateUser users email password now).2 =
                updateUser users u.id (fun v => v.incLoginAttempts now)
            ∧ (u.hasExpiredLock now = true →
                (u.incLoginAttempts now).loginAttempts = 1
                ∧ (u.incLoginAttempts now).lockedUntil = none)
            ∧ (u.hasExpiredLock now = false →
                (u.incLoginAttempts now).loginAttempts = u.loginAttempts + 1
                ∧ (5 ≤ u.loginAttempts + 1 →
                    (u.incLoginAttempts now).lockedUntil =
                      some (now + 2 * 60 * 60 * 1000)))) := by
  constructor
  · intro hnone
    unfold validateUser
    rw [hnone]
  · intro u hfind
    refine ⟨fun hl => ?_, fun hnl hin => ?_, fun hnl hact hwrong => ?_⟩
    · unfold validateUser
      rw [hfind]
      simp [hl]
    · unfold validateUser
      rw [hfind]
      simp [hnl, hin]
    · refine ⟨?_, ?_, fun hel => ?_, fun hel => ?_⟩
      · unfold validateUser
        rw [hfind]
        simp [hnl, hact, hwrong]
      · unfold validateUser
        rw [hfind]
        simp [hnl, hact, hwrong]
      · constructor <;> simp [User.incLoginAttempts, hel]
      · constructor
        · by_cases h5 : u.loginAttempts + 1 ≥ 5 <;>
            simp [User.incLoginAttempts, hel, hnl, h5]
        · intro h5
          simp [User.incLoginAttempts, hel, hnl, h5]

/-- C5 witness: a fresh active user at `loginAttempts = 4` who supplies a
wrong password is refused with the generic result and the incremented
counter 5 triggers the two-hour lock. -/
theorem validateUser_first_failure_order_witness :
    (validateUser
        [⟨"u1", "a@x.com", bcryptHash "Str0ng!Pass1", "Ada", "Lovelace",
          UserRole.endUser, "D1", true, none, false, 4, none, none, none⟩]
        "a@x.com" "wrong" 50).1 = ValidateResult.invalidCredentials
    ∧ ((⟨"u1", "a@x.com", bcryptHash "Str0ng!Pass1", "Ada", "Lovelace",
          UserRole.endUser, "D1", true, none, false, 4, none, none,
          none⟩ : User).incLoginAttempts 50).lockedUntil = some (50 + 2 * 60 * 60 * 1000) := by
  have h := (validateUser_first_failure_order
      [⟨"u1", "a@x.com", bcryptHash "Str0ng!Pass1", "Ada", "Lovelace",
        UserRole.endUser, "D1", true, none, false, 4, none, none, none⟩]
      "a@x.com" "wrong" 50).2
    ⟨"u1", "a@x.com", bcryptHash "Str0ng!Pass1", "Ada", "Lovelace",
      UserRole.endUser, "D1", true, none, false, 4, none, none, none⟩
    (by decide)
  have h3 := h.2.2 (by decide) (by decide) (by decide)
  exact ⟨h3.1, (h3.2.2.2 (by decide)).2 (by decide)⟩

/-- C1: starting from a fresh, active account (no failed attempts, no lock),
five consecutive failed logins set `lockedUntil` to two hours after the
fifth attempt; while `now` is before that instant every further
`validateUser` call — with any password, the correct one included — returns
`accountLocked`; once `lockedUntil` has elapsed, the correct password
succeeds again. -/
theorem lockout_after_five_failures (u : User) (e p w : String)
    (t1 t2 t3 t4 t5 : Nat)
    (hemail : u.email = asciiLower e)
    (hattempts : u.loginAttempts = 0) (hlock : u.lockedUntil = none)
    (hactive : u.isActive = true)
    (hwrong : bcryptCompare w u.passwordHash = false)
    (hright : bcryptCompare p u.passwordHash = true) :
    ∃ v, loginAttemptsAt [u] e w [t1, t2, t3, t4, t5] = [v]
      ∧ v.lockedUntil = some (t5 + 2 * 60 * 60 * 1000)
      ∧ v.loginAttempts = 5
      ∧ (∀ now pw, now < t5 + 2 * 60 * 60 * 1000 →
          (validateUser [v] e pw now).1 = .accountLocked)
      ∧ (∀ now, t5 + 2 * 60 * 60 * 1000 ≤ now →
          (validateUser [v] e p now).1.isOk = true) := by
  obtain ⟨uid, em, ph, fn, ln, rl, dep, act, tfs, tfe, la, lu, lla, pca⟩ := u
  simp only at hemail hattempts hlock hactive hwrong hright
  subst hattempts hlock hactive
  have h1 : (validateUser
      [⟨uid, em, ph, fn, ln, rl, dep, true, tfs, tfe, 0, none, lla, pca⟩] e w t1).2 =
      [⟨uid, em, ph, fn, ln, rl, dep, true, tfs, tfe, 1, none, lla, pca⟩] :=
    validateUser_wrong_step_no_lock _ e w t1 hemail rfl rfl hwrong
      (by show 0 + 1 < 5; decide)
  have h2 : (validateUser
      [⟨uid, em, ph, fn, ln, rl, dep, true, tfs, tfe, 1, none, lla, pca⟩] e w t2).2 =
      [⟨uid, em, ph, fn, ln, rl, dep, true, tfs, tfe, 2, none, lla, pca⟩] :=
    validateUser_wrong_step_no_lock _ e w t2 hemail rfl rfl hwrong
      (by show 1 + 1 < 5; decide)
  have h3 : (validateUser
      [⟨uid, em, ph, fn, ln, rl, dep, true, tfs, tfe, 2, none, lla, pca⟩] e w t3).2 =
      [⟨uid, em, ph, fn, ln, rl, dep, true, tfs, tfe, 3, none, lla, pca⟩] :=
    validateUser_wrong_step_no_lock _ e w t3 hemail rfl rfl hwrong
      (by show 2 + 1 < 5; decide)
  have h4 : (validateUser
      [⟨uid, em, ph, fn, ln, rl, dep, true, tfs, tfe, 3, none, lla, pca⟩] e w t4).2 =
      [⟨uid, em, ph, fn, ln, rl, dep, true, tfs, tfe, 4, none, lla, pca⟩] :=
    validateUser_wrong_step_no_lock _ e w t4 hemail rfl rfl hwrong
      (by show 3 + 1 < 5; decide)
  have h5 : (validateUser
      [⟨uid, em, ph, fn, ln, rl, dep, true, tfs, tfe, 4, none, lla, pca⟩] e w t5).2 =
      [⟨uid, em, ph, fn, ln, rl, dep, true, tfs, tfe, 5,
        some (t5 + 2 * 60 * 60 * 1000), lla, pca⟩] :=
    validateUser_wrong_step_locks _ e w t5 hemail rfl rfl hwrong
      (by show 5 ≤ 4 + 1; decide)
  refine ⟨⟨uid, em, ph, fn, ln, rl, dep, true, tfs, tfe, 5,
      some (t5 + 2 * 60 * 60 * 1000), lla, pca⟩, ?_, rfl, rfl, ?_, ?_⟩
  · simp only [loginAttemptsAt, List.foldl_cons, List.foldl_nil]
    rw [h1, h2, h3, h4, h5]
  · intro now pw hn
    rw [validateUser_locked _ e pw now hemail (by simp [User.isLocked, hn])]
  · intro now hn
    rw [validateUser_single_right _ e p now hemail
      (by simp [User.isLocked]; omega) rfl hright]
    rfl

/-- C1 witness: five wrong-password attempts at t=10..50 on a fresh account
lock it until t=7200050; at t=60 even the correct password is refused with
`accountLocked`, and at t=7200050 the correct password succeeds. -/
theorem lockout_after_five_failures_witness :
    (validateUser
        (loginAttemptsAt
          [⟨"u1", "a@x.com", bcryptHash "Str0ng!Pass1", "Ada", "Lovelace",
            UserRole.endUser, "D1", true, none, false, 0, none, none, none⟩]
          "a@x.com" "wrong" [10, 20, 30, 40, 50])
        "a@x.com" "Str0ng!Pass1" 60).1 = ValidateResult.accountLocked
    ∧ (validateUser
        (loginAttemptsAt
          [⟨"u1", "a@x.com", bcryptHash "Str0ng!Pass1", "Ada", "Lovelace",
            UserRole.endUser, "D1", true, none, false, 0, none, none, none⟩]
          "a@x.com" "wrong" [10, 20, 30, 40, 50])
        "a@x.com" "Str0ng!Pass1" 7200050).1.isOk = true := by
  obtain ⟨v, hv, -, -, hlocked, hok⟩ := lockout_after_five_failures
    ⟨"u1", "a@x.com", bcryptHash "Str0ng!Pass1", "Ada", "Lovelace",
      UserRole.endUser, "D1", true, none, false, 0, none, none, none⟩
    "a@x.com" "Str0ng!Pass1" "wrong" 10 20 30 40 50
    (by decide) rfl rfl rfl (by decide) (by decide)
  rw [hv]
  exact ⟨hlocked 60 "Str0ng!Pass1" (by decide), hok 7200050 (by decide)⟩

/-- C2: a successful `refresh(token)` commits `revoked=true` on every session
bearing that token before the new pair is returned, and from the committed
store every later `refresh` call with the same token value — at any time,
with any fresh token — fails with `invalidRefreshToken`: refresh never
succeeds twice on one token, so at most one successor session is ever minted
per predecessor. -/
theorem refreshToken_revokes_and_never_twice
    (secret : String) (users : List User) (sessions : List RefreshToken)
    (token freshTok : String) (now ttl : Nat)
    (huniq : sessions.Pairwise (fun a b => a.token ≠ b.token))
    (hfresh : freshTok ≠ token)
    (a : SignedToken) (r : String) (sessions2 : List RefreshToken)
    (hok : refreshToken secret users sessions token now freshTok ttl =
      (.ok a r, sessions2)) :
    (∀ s ∈ sessions2, s.token = token → s.isRevoked = true)
    ∧ ∀ now2 fresh2 ttl2,
        (refreshToken secret users sessions2 token now2 fresh2 ttl2).1 =
          .invalidRefreshToken := by
  unfold refreshToken at hok
  cases hfind : findActiveSession sessions token with
  | none => rw [hfind] at hok; simp at hok
  | some tokenDoc =>
    rw [hfind] at hok
    by_cases hvalid : tokenDoc.isValid now = true
    · cases hfu : findUserById users tokenDoc.userId with
      | none => simp [hvalid, hfu] at hok
      | some user =>
        by_cases hact : user.isActive = true
        · simp only [hvalid, hfu, hact, Bool.not_true, Bool.false_eq_true,
            if_false] at hok
          have hsess : sessions2 =
              generateRefreshToken
                (updateOneSession sessions
                  (fun s => s.token == token && s.isRevoked == false)
                  (fun s => { s with isRevoked := true }))
                freshTok user.id now tokenDoc.ipAddress tokenDoc.userAgent :=
            (Prod.mk.injEq _ _ _ _ ▸ hok).2.symm
          have hrev : ∀ s ∈ sessions2, s.token = token → s.isRevoked = true := by
            intro s hs htok
            rw [hsess] at hs
            unfold generateRefreshToken at hs
            rcases List.mem_append.mp hs with hmem | hmem
            · exact updateOne_revoke_all sessions token huniq s hmem htok
            · rw [List.mem_singleton] at hmem
              subst hmem
              exact absurd htok hfresh
          refine ⟨hrev, fun now2 fresh2 ttl2 => ?_⟩
          have hnone : findActiveSession sessions2 token = none := by
            unfold findActiveSession
            rw [List.find?_eq_none]
            intro s hs hcontra
            have htok : s.token = token :=
              eq_of_beq (Bool.and_eq_true _ _ ▸ hcontra).1
            have hnr : s.isRevoked = false :=
              eq_of_beq (Bool.and_eq_true _ _ ▸ hcontra).2
            rw [hrev s hs htok] at hnr
            cases hnr
          unfold refreshToken
          rw [hnone]
        · simp [hvalid, hfu, hact] at hok
    · simp [hvalid] at hok

/-- C2 witness: refreshing session "t1" of an active user at t=5 succeeds
with successor "t2", and a second refresh of "t1" on the committed store
fails with `invalidRefreshToken`. -/
theorem refreshToken_revokes_and_never_twice_witness :
    (refreshToken "k"
      [⟨"u1", "a@x.com", bcryptHash "Str0ng!Pass1", "Ada", "Lovelace",
        UserRole.endUser, "D1", true, none, false, 0, none, none, none⟩]
      [⟨"t1", "u1", 999999999999, true, none, none⟩,
       ⟨"t2", "u1", 604800005, false, none, none⟩]
      "t1" 7 "t3" 900).1 = RefreshResult.invalidRefreshToken :=
  (refreshToken_revokes_and_never_twice "k"
    [⟨"u1", "a@x.com", bcryptHash "Str0ng!Pass1", "Ada", "Lovelace",
      UserRole.endUser, "D1", true, none, false, 0, none, none, none⟩]
    [⟨"t1", "u1", 999999999999, false, none, none⟩]
    "t1" "t2" 5 900 (by decide) (by decide)
    ⟨⟨"u1", "a@x.com", UserRole.endUser, "D1"⟩, 5, 905, "k"⟩ "t2"
    [⟨"t1", "u1", 999999999999, true, none, none⟩,
     ⟨"t2", "u1", 604800005, false, none, none⟩]
    (by decide)).2 7 "t3" 900

end InstructionSheet
